import Mathlib

/-!
Shallow embedding of the metrics and scoring engine of a personal finance
tracker.  Transactions, budgets and goals are records; the derived analytics
(percentages, month-over-month change, spike detection, budget utilization,
goal progress and the composite health score) are pure functions of those
collections.  Amounts are integers in minor currency units (paisa), modelled
as naturals (or integers where the source value may go negative); values the
source computes with Python float division are modelled as rationals.  The
ambient current and previous months are passed explicitly as `YYYY-MM`
strings.
-/

/-- Transaction record: ISO date, kind (expense or income), category,
amount in paisa and free-text description. -/
structure Transaction where
  date : String
  ttype : String
  category : String
  amount_paisa : ℕ
  description : String
deriving DecidableEq

/-- Transactions whose date starts with the given `YYYY-MM` month string. -/
def filter_transactions_by_month (transactions : List Transaction) (month : String) :
    List Transaction :=
  transactions.filter (fun t => month.data.isPrefixOf t.date.data)

/-- Transactions of the given kind (`"expense"` or `"income"`). -/
def filter_by_type (transactions : List Transaction) (trans_type : String) :
    List Transaction :=
  transactions.filter (fun t => t.ttype == trans_type)

/-- Transactions of the given category. -/
def filter_by_category (transactions : List Transaction) (category : String) :
    List Transaction :=
  transactions.filter (fun t => t.category == category)

/-- Total expenses for a month in paisa. -/
def calculate_total_spending (transactions : List Transaction) (month : String) : ℕ :=
  ((filter_by_type (filter_transactions_by_month transactions month) "expense").map
    Transaction.amount_paisa).sum

/-- Spending for a specific category in a month, in paisa. -/
def calculate_category_spending (transactions : List Transaction)
    (category month : String) : ℕ :=
  ((filter_by_category
      (filter_by_type (filter_transactions_by_month transactions month) "expense")
      category).map Transaction.amount_paisa).sum

/-- Total income for a month in paisa. -/
def calculate_total_income_month (transactions : List Transaction) (month : String) : ℕ :=
  ((filter_by_type (filter_transactions_by_month transactions month) "income").map
    Transaction.amount_paisa).sum

/-- Category spending as a percentage of a total; 0 when the total is 0. -/
def calculate_category_percentage (category_amount total : ℕ) : ℚ :=
  if total = 0 then 0 else ((category_amount : ℚ) / total) * 100

/-- Savings for a month: income minus expenses, may be negative. -/
def calculate_monthly_savings (transactions : List Transaction) (month : String) : ℤ :=
  (calculate_total_income_month transactions month : ℤ) -
    calculate_total_spending transactions month

/-- Savings rate as a percentage of income; 0 when income is 0. -/
def calculate_savings_rate (transactions : List Transaction) (month : String) : ℚ :=
  let income := calculate_total_income_month transactions month
  if income = 0 then 0
  else ((calculate_monthly_savings transactions month : ℚ) / (income : ℚ)) * 100

/-- Percentage change from a previous total to a current total: 0 when both
are zero, 100 when only the previous is zero, else the relative change. -/
def month_over_month_change (current previous : ℕ) : ℚ :=
  if previous = 0 then (if current = 0 then 0 else 100)
  else (((current : ℚ) - (previous : ℚ)) / (previous : ℚ)) * 100

/-- Month-over-month change of spending, for one category or for the total. -/
def calculate_month_over_month_change (transactions : List Transaction)
    (category : Option String) (current_month last_month : String) : ℚ :=
  match category with
  | some c =>
      month_over_month_change (calculate_category_spending transactions c current_month)
        (calculate_category_spending transactions c last_month)
  | none =>
      month_over_month_change (calculate_total_spending transactions current_month)
        (calculate_total_spending transactions last_month)

/-- Budget record: category, limit in paisa, period (monthly or weekly). -/
structure Budget where
  category : String
  limit_paisa : ℕ
  period : String
deriving DecidableEq

/-- Remaining budget: limit minus spent, may be negative. -/
def calculate_remaining (budget spent : ℕ) : ℤ :=
  (budget : ℤ) - (spent : ℤ)

/-- Budget utilization percentage, 0 when the limit is 0, unclamped above. -/
def calculate_utilization (spent budget : ℕ) : ℚ :=
  if budget = 0 then 0 else ((spent : ℚ) / (budget : ℚ)) * 100

/-- Status text and color for a utilization percentage. -/
def get_budget_status (utilization : ℚ) : String × String :=
  if utilization ≥ 100 then ("Over Budget", "red")
  else if utilization ≥ 70 then ("Warning", "yellow")
  else ("OK", "green")

/-- Rank of a status in the order OK < Warning < Over Budget. -/
def statusRank (status : String) : ℕ :=
  if status == "OK" then 0 else if status == "Warning" then 1 else 2

/-- Append a new budget record. -/
def write_budget (budgets : List Budget) (category : String) (limit_paisa : ℕ)
    (period : String) : List Budget :=
  budgets ++ [⟨category, limit_paisa, period⟩]

/-- Give the first budget of the category the new limit; the flag reports
whether a matching budget was found. -/
def update_budget_list : List Budget → String → ℕ → List Budget × Bool
  | [], _, _ => ([], false)
  | b :: rest, category, newLimit =>
    if b.category == category then (⟨b.category, newLimit, b.period⟩ :: rest, true)
    else
      let r := update_budget_list rest category newLimit
      (b :: r.1, r.2)

/-- Update an existing budget; the stored collection is unchanged when the
category has no budget. -/
def update_budget (budgets : List Budget) (category : String)
    (new_limit_paisa : ℕ) : List Budget :=
  let r := update_budget_list budgets category new_limit_paisa
  if r.2 then r.1 else budgets

/-- Delete all budgets of the category. -/
def delete_budget (budgets : List Budget) (category : String) : List Budget :=
  budgets.filter (fun b => !(b.category == category))

/-- Whether a budget exists for the category. -/
def budget_exists (budgets : List Budget) (category : String) : Bool :=
  budgets.any (fun b => b.category == category)

/-- Limit of the first budget for the category, if any. -/
def get_budget_for_category (budgets : List Budget) (category : String) : Option ℕ :=
  match budgets.find? (fun b => b.category == category) with
  | some b => some b.limit_paisa
  | none => none

/-- Set a budget: update when one exists for the category, else append a new
monthly record. -/
def set_budget (budgets : List Budget) (category : String) (amount_paisa : ℕ) :
    List Budget :=
  if budget_exists budgets category then update_budget budgets category amount_paisa
  else write_budget budgets category amount_paisa "monthly"

/-- Stored budget collections reachable from the empty file through the
set, update and delete operations. -/
inductive ReachableBudgets : List Budget → Prop
  | empty : ReachableBudgets []
  | set (s : List Budget) (cat : String) (amt : ℕ) :
      ReachableBudgets s → ReachableBudgets (set_budget s cat amt)
  | update (s : List Budget) (cat : String) (amt : ℕ) :
      ReachableBudgets s → ReachableBudgets (update_budget s cat amt)
  | del (s : List Budget) (cat : String) :
      ReachableBudgets s → ReachableBudgets (delete_budget s cat)

/-- Month part of a `YYYY-MM-DD` date string. -/
def get_month_from_date (date_str : String) : String :=
  String.mk (date_str.data.take 7)

/-- Transactions whose date falls in the given month. -/
def filter_current_month_transactions (transactions : List Transaction)
    (current_month : String) : List Transaction :=
  transactions.filter (fun t => get_month_from_date t.date == current_month)

/-- Spending of the category in the given month, in paisa. -/
def get_current_month_spending (transactions : List Transaction)
    (month category : String) : ℕ :=
  ((filter_by_category
      (filter_current_month_transactions (filter_by_type transactions "expense") month)
      category).map Transaction.amount_paisa).sum

/-- Per-budget evaluation row: limit, month spend, remaining, utilization
and status. -/
structure BudgetData where
  category : String
  limit_paisa : ℕ
  spent_paisa : ℕ
  remaining_paisa : ℤ
  utilization : ℚ
  status_text : String
  status_color : String
  period : String
deriving DecidableEq

/-- Evaluate every stored budget against the month spending. -/
def get_budget_data (transactions : List Transaction) (budgets : List Budget)
    (month : String) : List BudgetData :=
  budgets.map (fun b =>
    let spent := get_current_month_spending transactions month b.category
    let util := calculate_utilization spent b.limit_paisa
    let st := get_budget_status util
    ⟨b.category, b.limit_paisa, spent, calculate_remaining b.limit_paisa spent,
      util, st.1, st.2, b.period⟩)

/-- Savings component of the health score as a function of the savings rate. -/
def savings_score_of_rate (rate : ℚ) : ℕ :=
  if rate ≥ 20 then 30
  else if rate ≥ 15 then 22
  else if rate ≥ 10 then 15
  else if rate ≥ 5 then 8
  else 0

/-- Savings component of the health score, max 30 points. -/
def calculate_savings_score (transactions : List Transaction) (month : String) : ℕ :=
  savings_score_of_rate (calculate_savings_rate transactions month)

/-- Budget-adherence component of the health score, max 25 points; 15 neutral
points when no budgets are set. -/
def calculate_budget_adherence_score (transactions : List Transaction)
    (budgets : List Budget) (month : String) : ℕ :=
  if budgets = [] then 15
  else
    let budget_data := get_budget_data transactions budgets month
    if budget_data = [] then 15
    else
      let ok_count := (budget_data.filter (fun b => decide (b.utilization < 100))).length
      let total_count := budget_data.length
      if total_count = 0 then 15
      else
        let ok_percentage : ℚ := ((ok_count : ℚ) / (total_count : ℚ)) * 100
        if ok_percentage = 100 then 25
        else if ok_percentage ≥ 75 then 18
        else if ok_percentage ≥ 50 then 12
        else if ok_percentage ≥ 25 then 6
        else 0

/-- Balance component of the health score, max 25 points. -/
def calculate_balance_score (transactions : List Transaction) (month : String) : ℕ :=
  let savings := calculate_monthly_savings transactions month
  if savings > 0 then 25
  else if savings = 0 then 15
  else 0

/-- Descending order on transactions by amount. -/
def spikeOrder (a b : Transaction) : Prop :=
  b.amount_paisa ≤ a.amount_paisa

instance : DecidableRel spikeOrder :=
  fun _ _ => Nat.decLe _ _

instance : IsTotal Transaction spikeOrder :=
  ⟨fun a b => Nat.le_total b.amount_paisa a.amount_paisa⟩

instance : IsTrans Transaction spikeOrder :=
  ⟨fun _ _ _ hab hbc => le_trans hbc hab⟩

/-- Expense transactions of the month whose amount strictly exceeds twice the
mean expense amount of the month, sorted descending by amount. -/
def detect_spending_spikes (transactions : List Transaction) (month : String) :
    List Transaction :=
  let expenses := filter_by_type (filter_transactions_by_month transactions month) "expense"
  if expenses = [] then []
  else
    let amounts := expenses.map Transaction.amount_paisa
    let avg : ℚ := (amounts.sum : ℚ) / (amounts.length : ℚ)
    let threshold := avg * 2
    let spikes := expenses.filter (fun t => decide ((t.amount_paisa : ℚ) > threshold))
    List.insertionSort spikeOrder spikes

/-- Consistency component of the health score, max 20 points. -/
def calculate_consistency_score (transactions : List Transaction) (month : String) : ℕ :=
  let spike_count := (detect_spending_spikes transactions month).length
  if spike_count = 0 then 20
  else if spike_count = 1 then 15
  else if spike_count = 2 then 10
  else 5

/-- Overall financial health score, 0 to 100. -/
def calculate_overall_health_score (transactions : List Transaction)
    (budgets : List Budget) (month : String) : ℕ :=
  calculate_savings_score transactions month +
    calculate_budget_adherence_score transactions budgets month +
    calculate_balance_score transactions month +
    calculate_consistency_score transactions month

/-- Goal record: name, target and current amounts in paisa, deadline,
creation date and type label. -/
structure Goal where
  name : String
  target_paisa : ℤ
  current_paisa : ℤ
  deadline : String
  created_date : String
  goal_type : String
deriving DecidableEq

/-- Lower-case form of a string, used for case-insensitive goal names. -/
def lowerStr (s : String) : String :=
  String.mk (s.data.map Char.toLower)

/-- Add the amount to a goal, clamping the current amount at the target. -/
def applyGoalProgress (additional_amount : ℤ) (g : Goal) : Goal :=
  let c := g.current_paisa + additional_amount
  { g with current_paisa := if c > g.target_paisa then g.target_paisa else c }

/-- Apply the progress increment to the first goal whose name matches
case-insensitively; the flag reports whether a goal was found. -/
def update_goal_list : List Goal → String → ℤ → List Goal × Bool
  | [], _, _ => ([], false)
  | g :: rest, goal_name, amt =>
    if lowerStr g.name == lowerStr goal_name then (applyGoalProgress amt g :: rest, true)
    else
      let r := update_goal_list rest goal_name amt
      (g :: r.1, r.2)

/-- Add an amount to a goal; `none` when no goal of that name exists. -/
def update_goal_progress (goals : List Goal) (goal_name : String)
    (additional_amount : ℤ) : Option (List Goal) :=
  let r := update_goal_list goals goal_name additional_amount
  if r.2 then some r.1 else none

/-- Goal completion percentage, clamped to 100; 100 when the target is 0. -/
def calculate_goal_progress (goal : Goal) : ℚ :=
  if goal.target_paisa = 0 then 100
  else min 100 (((goal.current_paisa : ℚ) / (goal.target_paisa : ℚ)) * 100)

/-- Comparison of the current month with the previous one. -/
structure MonthComparison where
  current_income : ℕ
  last_income : ℕ
  income_change : ℚ
  current_expenses : ℕ
  last_expenses : ℕ
  expense_change : ℚ
  current_savings : ℤ
  last_savings : ℤ
  savings_change : ℚ

/-- Income, expense and savings comparison with the previous month; each
change is computed only when the previous value is strictly positive and
stays 0 otherwise. -/
def compare_with_last_month (transactions : List Transaction)
    (current_month last_month : String) : MonthComparison :=
  let current_income := calculate_total_income_month transactions current_month
  let last_income := calculate_total_income_month transactions last_month
  let current_expenses := calculate_total_spending transactions current_month
  let last_expenses := calculate_total_spending transactions last_month
  let current_savings := calculate_monthly_savings transactions current_month
  let last_savings := calculate_monthly_savings transactions last_month
  let income_change : ℚ :=
    if 0 < last_income then
      (((current_income : ℚ) - (last_income : ℚ)) / (last_income : ℚ)) * 100
    else 0
  let expense_change : ℚ :=
    if 0 < last_expenses then
      (((current_expenses : ℚ) - (last_expenses : ℚ)) / (last_expenses : ℚ)) * 100
    else 0
  let savings_change : ℚ :=
    if 0 < last_savings then
      (((current_savings : ℚ) - (last_savings : ℚ)) / (last_savings : ℚ)) * 100
    else 0
  ⟨current_income, last_income, income_change, current_expenses, last_expenses,
    expense_change, current_savings, last_savings, savings_change⟩

/-- Ranks of the three status strings. -/
lemma statusRank_strings :
    statusRank "OK" = 0 ∧ statusRank "Warning" = 1 ∧ statusRank "Over Budget" = 2 := by
  decide

/-- Status rank as a direct function of the utilization thresholds. -/
lemma statusRank_get_budget_status (u : ℚ) :
    statusRank (get_budget_status u).1 = if u ≥ 100 then 2 else if u ≥ 70 then 1 else 0 := by
  unfold get_budget_status
  split_ifs <;> rfl

/-- The status tier never moves backward as utilization grows. -/
lemma statusRank_mono {u1 u2 : ℚ} (h : u1 ≤ u2) :
    statusRank (get_budget_status u1).1 ≤ statusRank (get_budget_status u2).1 := by
  rw [statusRank_get_budget_status, statusRank_get_budget_status]
  split_ifs <;> linarith

/-- C2: month-over-month change is 0 when both totals are zero, 100 when only
the previous is zero, the relative change otherwise, and 25 for current
500000 against previous 400000. -/
theorem mom_change_spec (current previous : ℕ) :
    (current = 0 → previous = 0 → month_over_month_change current previous = 0) ∧
    (previous = 0 → current ≠ 0 → month_over_month_change current previous = 100) ∧
    (previous ≠ 0 →
      month_over_month_change current previous =
        (((current : ℚ) - (previous : ℚ)) / (previous : ℚ)) * 100) ∧
    month_over_month_change 500000 400000 = 25 := by
  refine ⟨fun hc hp => ?_, fun hp hc => ?_, fun hp => ?_, ?_⟩
  · simp [month_over_month_change, hc, hp]
  · simp [month_over_month_change, hc, hp]
  · simp [month_over_month_change, hp]
  · norm_num [month_over_month_change]

/-- Witness for C2 at concrete inputs. -/
theorem mom_change_spec_witness :
    month_over_month_change 0 0 = 0 ∧ month_over_month_change 7 0 = 100 ∧
      month_over_month_change 500000 400000 =
        ((((500000 : ℕ) : ℚ) - ((400000 : ℕ) : ℚ)) / ((400000 : ℕ) : ℚ)) * 100 :=
  ⟨(mom_change_spec 0 0).1 rfl rfl, (mom_change_spec 7 0).2.1 rfl (by norm_num),
    (mom_change_spec 500000 400000).2.2.1 (by norm_num)⟩

/-- C3: utilization is spent over limit times 100 (0 when the limit is 0) and
the status tier is OK below 70, Warning from 70 up to 100, Over Budget
from 100. -/
theorem utilization_status_spec (spent budget : ℕ) (u : ℚ) :
    (budget = 0 → calculate_utilization spent budget = 0) ∧
    (budget ≠ 0 →
      calculate_utilization spent budget = ((spent : ℚ) / (budget : ℚ)) * 100) ∧
    (u < 70 → (get_budget_status u).1 = "OK") ∧
    (70 ≤ u → u < 100 → (get_budget_status u).1 = "Warning") ∧
    (100 ≤ u → (get_budget_status u).1 = "Over Budget") := by
  refine ⟨fun h => ?_, fun h => ?_, fun h => ?_, fun h1 h2 => ?_, fun h => ?_⟩
  · simp [calculate_utilization, h]
  · simp [calculate_utilization, h]
  · have h1 : ¬ u ≥ 100 := by linarith
    have h2 : ¬ u ≥ 70 := by linarith
    simp [get_budget_status, h1, h2]
  · have h3 : ¬ u ≥ 100 := by linarith
    have h4 : u ≥ 70 := h1
    simp [get_budget_status, h3, h4]
  · have h1 : u ≥ 100 := h
    simp [get_budget_status, h1]

/-- Witness for C3 at concrete inputs. -/
theorem utilization_status_spec_witness :
    calculate_utilization 50 0 = 0 ∧
      calculate_utilization 50 200 = (((50 : ℕ) : ℚ) / ((200 : ℕ) : ℚ)) * 100 ∧
      (get_budget_status 30).1 = "OK" ∧ (get_budget_status 70).1 = "Warning" ∧
      (get_budget_status 100).1 = "Over Budget" :=
  ⟨(utilization_status_spec 50 0 30).1 rfl,
    (utilization_status_spec 50 200 30).2.1 (by norm_num),
    (utilization_status_spec 50 200 30).2.2.1 (by norm_num),
    (utilization_status_spec 50 200 70).2.2.2.1 (by norm_num) (by norm_num),
    (utilization_status_spec 50 200 100).2.2.2.2 (by norm_num)⟩

/-- C4: with the limit fixed, utilization is monotone in the spent amount and
the status tier never moves backward in the order OK, Warning, Over Budget. -/
theorem budget_tier_monotone (limit s1 s2 : ℕ) (h : s1 ≤ s2) :
    calculate_utilization s1 limit ≤ calculate_utilization s2 limit ∧
    statusRank (get_budget_status (calculate_utilization s1 limit)).1 ≤
      statusRank (get_budget_status (calculate_utilization s2 limit)).1 := by
  have hu : calculate_utilization s1 limit ≤ calculate_utilization s2 limit := by
    unfold calculate_utilization
    split_ifs with hl
    · exact le_refl 0
    · have hl0 : (0 : ℚ) < (limit : ℚ) := by
        exact_mod_cast Nat.pos_of_ne_zero hl
      have hs : (s1 : ℚ) ≤ (s2 : ℚ) := by exact_mod_cast h
      gcongr
  exact ⟨hu, statusRank_mono hu⟩

/-- Witness for C4 at concrete inputs. -/
theorem budget_tier_monotone_witness :
    30 ≤ 80 ∧
      (calculate_utilization 30 100 ≤ calculate_utilization 80 100 ∧
        statusRank (get_budget_status (calculate_utilization 30 100)).1 ≤
          statusRank (get_budget_status (calculate_utilization 80 100)).1) :=
  ⟨by norm_num, budget_tier_monotone 100 30 80 (by norm_num)⟩

/-- C6: the savings component is 30 from rate 20 up, 22 from 15, 15 from 10,
8 from 5, otherwise 0, with the 20 percent boundary inclusive. -/
theorem savings_score_spec (r : ℚ) :
    (20 ≤ r → savings_score_of_rate r = 30) ∧
    (15 ≤ r → r < 20 → savings_score_of_rate r = 22) ∧
    (10 ≤ r → r < 15 → savings_score_of_rate r = 15) ∧
    (5 ≤ r → r < 10 → savings_score_of_rate r = 8) ∧
    (r < 5 → savings_score_of_rate r = 0) ∧
    savings_score_of_rate 20 = 30 := by
  refine ⟨fun h => ?_, fun h1 h2 => ?_, fun h1 h2 => ?_, fun h1 h2 => ?_, fun h => ?_, ?_⟩
  · simp only [savings_score_of_rate]
    rw [if_pos h]
  · simp only [savings_score_of_rate]
    rw [if_neg (by linarith), if_pos h1]
  · simp only [savings_score_of_rate]
    rw [if_neg (by linarith), if_neg (by linarith), if_pos h1]
  · simp only [savings_score_of_rate]
    rw [if_neg (by linarith), if_neg (by linarith), if_neg (by linarith), if_pos h1]
  · simp only [savings_score_of_rate]
    rw [if_neg (by linarith), if_neg (by linarith), if_neg (by linarith),
      if_neg (by linarith)]
  · norm_num [savings_score_of_rate]

/-- Witness for C6 at concrete rates. -/
theorem savings_score_spec_witness :
    savings_score_of_rate 20 = 30 ∧ savings_score_of_rate 17 = 22 ∧
      savings_score_of_rate 12 = 15 ∧ savings_score_of_rate 7 = 8 ∧
      savings_score_of_rate 3 = 0 :=
  ⟨(savings_score_spec 20).1 (by norm_num),
    (savings_score_spec 17).2.1 (by norm_num) (by norm_num),
    (savings_score_spec 12).2.2.1 (by norm_num) (by norm_num),
    (savings_score_spec 7).2.2.2.1 (by norm_num) (by norm_num),
    (savings_score_spec 3).2.2.2.2.1 (by norm_num)⟩

/-- C9: the category-percentage and budget-utilization operations both return
0 for a zero denominator, for every numerator. -/
theorem percentage_zero_denominator (p : ℕ) :
    calculate_category_percentage p 0 = 0 ∧ calculate_utilization p 0 = 0 := by
  constructor <;> simp [calculate_category_percentage, calculate_utilization]

/-- C1: with no transactions in the month and no budgets, the components are
0, 15, 15 and 20 and the overall health score is exactly 50. -/
theorem health_score_empty_fifty (transactions : List Transaction) (month : String)
    (h : filter_transactions_by_month transactions month = []) :
    calculate_savings_score transactions month = 0 ∧
    calculate_budget_adherence_score transactions [] month = 15 ∧
    calculate_balance_score transactions month = 15 ∧
    calculate_consistency_score transactions month = 20 ∧
    calculate_overall_health_score transactions [] month = 50 := by
  have hspend : calculate_total_spending transactions month = 0 := by
    simp [calculate_total_spending, h, filter_by_type]
  have hinc : calculate_total_income_month transactions month = 0 := by
    simp [calculate_total_income_month, h, filter_by_type]
  have hsav : calculate_monthly_savings transactions month = 0 := by
    simp [calculate_monthly_savings, hspend, hinc]
  have hrate : calculate_savings_rate transactions month = 0 := by
    simp [calculate_savings_rate, hinc]
  have hsavsc : calculate_savings_score transactions month = 0 := by
    norm_num [calculate_savings_score, hrate, savings_score_of_rate]
  have hadh : calculate_budget_adherence_score transactions [] month = 15 := by
    simp [calculate_budget_adherence_score]
  have hbal : calculate_balance_score transactions month = 15 := by
    simp [calculate_balance_score, hsav]
  have hspk : detect_spending_spikes transactions month = [] := by
    simp [detect_spending_spikes, h]
  have hcons : calculate_consistency_score transactions month = 20 := by
    simp [calculate_consistency_score, hspk]
  refine ⟨hsavsc, hadh, hbal, hcons, ?_⟩
  simp [calculate_overall_health_score, hsavsc, hadh, hbal, hcons]

/-- Witness for C1 on the empty ledger. -/
theorem health_score_empty_fifty_witness :
    filter_transactions_by_month [] "2025-01" = [] ∧
      calculate_overall_health_score [] [] "2025-01" = 50 :=
  ⟨rfl, (health_score_empty_fifty [] "2025-01" rfl).2.2.2.2⟩

/-- C10: each change in the month comparison is the relative change only when
the previous value is strictly positive and is 0 otherwise, while the
month-over-month operation returns 100 for a zero previous total and a
non-zero current one. -/
theorem compare_last_month_zero_guard (transactions : List Transaction)
    (cm lm : String) :
    ((compare_with_last_month transactions cm lm).last_income = 0 →
      (compare_with_last_month transactions cm lm).income_change = 0) ∧
    ((compare_with_last_month transactions cm lm).last_expenses = 0 →
      (compare_with_last_month transactions cm lm).expense_change = 0) ∧
    ((compare_with_last_month transactions cm lm).last_savings ≤ 0 →
      (compare_with_last_month transactions cm lm).savings_change = 0) ∧
    (0 < (compare_with_last_month transactions cm lm).last_income →
      (compare_with_last_month transactions cm lm).income_change =
        ((((compare_with_last_month transactions cm lm).current_income : ℚ) -
            ((compare_with_last_month transactions cm lm).last_income : ℚ)) /
          ((compare_with_last_month transactions cm lm).last_income : ℚ)) * 100) ∧
    (0 < (compare_with_last_month transactions cm lm).last_expenses →
      (compare_with_last_month transactions cm lm).expense_change =
        ((((compare_with_last_month transactions cm lm).current_expenses : ℚ) -
            ((compare_with_last_month transactions cm lm).last_expenses : ℚ)) /
          ((compare_with_last_month transactions cm lm).last_expenses : ℚ)) * 100) ∧
    (0 < (compare_with_last_month transactions cm lm).last_savings →
      (compare_with_last_month transactions cm lm).savings_change =
        ((((compare_with_last_month transactions cm lm).current_savings : ℚ) -
            ((compare_with_last_month transactions cm lm).last_savings : ℚ)) /
          ((compare_with_last_month transactions cm lm).last_savings : ℚ)) * 100) ∧
    (∀ current : ℕ, current ≠ 0 → month_over_month_change current 0 = 100) := by
  refine ⟨fun h => ?_, fun h => ?_, fun h => ?_, fun h => ?_, fun h => ?_, fun h => ?_,
    fun current hc => ?_⟩
  · simp only [compare_with_last_month] at h ⊢
    simp [h]
  · simp only [compare_with_last_month] at h ⊢
    simp [h]
  · simp only [compare_with_last_month] at h ⊢
    rw [if_neg (not_lt.mpr h)]
  · simp only [compare_with_last_month] at h ⊢
    rw [if_pos h]
  · simp only [compare_with_last_month] at h ⊢
    rw [if_pos h]
  · simp only [compare_with_last_month] at h ⊢
    rw [if_pos h]
  · simp [month_over_month_change, hc]

/-- Witness for C10: a ledger whose previous month has no income reports a
zero income change even though the current month has income. -/
theorem compare_last_month_zero_guard_witness :
    (compare_with_last_month
        [⟨"2025-02-03", "income", "Salary", 1000, "pay"⟩] "2025-02" "2025-01").income_change
      = 0 ∧
    month_over_month_change 5 0 = 100 :=
  ⟨(compare_last_month_zero_guard
      [⟨"2025-02-03", "income", "Salary", 1000, "pay"⟩] "2025-02" "2025-01").1 (by decide),
    (compare_last_month_zero_guard
      [⟨"2025-02-03", "income", "Salary", 1000, "pay"⟩] "2025-02" "2025-01").2.2.2.2.2.2 5
      (by decide)⟩

/-- The goal increment keeps the current amount between 0 and the target. -/
lemma applyGoalProgress_bounds {g : Goal} {amt : ℤ} (h0 : 0 ≤ g.current_paisa)
    (h1 : g.current_paisa ≤ g.target_paisa) (hamt : 0 < amt) :
    0 ≤ (applyGoalProgress amt g).current_paisa ∧
      (applyGoalProgress amt g).current_paisa ≤ (applyGoalProgress amt g).target_paisa := by
  unfold applyGoalProgress
  dsimp only
  split_ifs with h
  · exact ⟨le_trans h0 h1, le_refl _⟩
  · exact ⟨by linarith, not_lt.mp h⟩

/-- Every goal in the updated list is an old goal or an incremented old goal. -/
lemma update_goal_list_mem (l : List Goal) (n : String) (a : ℤ) :
    ∀ g ∈ (update_goal_list l n a).1,
      g ∈ l ∨ ∃ g0, g0 ∈ l ∧ g = applyGoalProgress a g0 := by
  induction l with
  | nil =>
    intro g hg
    simp [update_goal_list] at hg
  | cons hd tl ih =>
    intro g hg
    simp only [update_goal_list] at hg
    by_cases hc : (lowerStr hd.name == lowerStr n)
    · simp only [hc, if_true, List.mem_cons] at hg
      rcases hg with hg | hg
      · exact Or.inr ⟨hd, List.mem_cons_self hd tl, hg⟩
      · exact Or.inl (List.mem_cons_of_mem hd hg)
    · simp only [hc, if_false, Bool.false_eq_true, List.mem_cons] at hg
      rcases hg with hg | hg
      · exact Or.inl (hg ▸ List.mem_cons_self hd tl)
      · rcases ih g hg with h | ⟨g0, hg0, he⟩
        · exact Or.inl (List.mem_cons_of_mem hd h)
        · exact Or.inr ⟨g0, List.mem_cons_of_mem hd hg0, he⟩

/-- A goal whose current amount equals its target has progress 100. -/
lemma calculate_goal_progress_full {g : Goal} (h : g.current_paisa = g.target_paisa) :
    calculate_goal_progress g = 100 := by
  unfold calculate_goal_progress
  split_ifs with h0
  · rfl
  · have ht : (g.target_paisa : ℚ) ≠ 0 := by exact_mod_cast h0
    rw [h, div_self ht, one_mul, min_self]

/-- C7: the goal invariant 0 ≤ current ≤ target is preserved by every
positive progress increment, an increment past the target clamps current to
the target with progress 100, and a zero target means progress 100. -/
theorem goal_progress_clamped (goals : List Goal) (goal_name : String) (amt : ℤ)
    (goals2 : List Goal) (hamt : 0 < amt)
    (hinv : ∀ g ∈ goals, 0 ≤ g.current_paisa ∧ g.current_paisa ≤ g.target_paisa)
    (hupd : update_goal_progress goals goal_name amt = some goals2) :
    (∀ g ∈ goals2, 0 ≤ g.current_paisa ∧ g.current_paisa ≤ g.target_paisa) ∧
    (∀ g : Goal, 0 ≤ g.current_paisa → g.current_paisa ≤ g.target_paisa →
      g.target_paisa < g.current_paisa + amt →
        (applyGoalProgress amt g).current_paisa = g.target_paisa ∧
        calculate_goal_progress (applyGoalProgress amt g) = 100) ∧
    (∀ g : Goal, g.target_paisa = 0 → calculate_goal_progress g = 100) := by
  have hlist : goals2 = (update_goal_list goals goal_name amt).1 := by
    unfold update_goal_progress at hupd
    by_cases hb : (update_goal_list goals goal_name amt).2
    · simp only [hb, if_true, Option.some.injEq] at hupd
      exact hupd.symm
    · simp [hb] at hupd
  refine ⟨?_, ?_, ?_⟩
  · intro g hg
    rw [hlist] at hg
    rcases update_goal_list_mem goals goal_name amt g hg with h | ⟨g0, hg0, he⟩
    · exact hinv g h
    · rcases hinv g0 hg0 with ⟨h0, h1⟩
      have hb := applyGoalProgress_bounds h0 h1 hamt
      have ht : (applyGoalProgress amt g0).target_paisa = g0.target_paisa := rfl
      rw [he]
      exact ⟨hb.1, le_trans hb.2 (le_of_eq ht)⟩
  · intro g h0 h1 hover
    have hc : (applyGoalProgress amt g).current_paisa = g.target_paisa := by
      unfold applyGoalProgress
      dsimp only
      rw [if_pos hover]
    refine ⟨hc, calculate_goal_progress_full ?_⟩
    exact hc
  · intro g h
    unfold calculate_goal_progress
    rw [if_pos h]

/-- Witness for C7 on a concrete goal list pushed past its target. -/
theorem goal_progress_clamped_witness :
    update_goal_progress
        [(⟨"Car", 1000, 900, "2025-12-31", "2025-01-01", "savings"⟩ : Goal)] "car" 200 =
      some [(⟨"Car", 1000, 1000, "2025-12-31", "2025-01-01", "savings"⟩ : Goal)] ∧
    (∀ g ∈ [(⟨"Car", 1000, 1000, "2025-12-31", "2025-01-01", "savings"⟩ : Goal)],
      0 ≤ g.current_paisa ∧ g.current_paisa ≤ g.target_paisa) :=
  ⟨by decide,
    (goal_progress_clamped
      [(⟨"Car", 1000, 900, "2025-12-31", "2025-01-01", "savings"⟩ : Goal)] "car" 200
      [(⟨"Car", 1000, 1000, "2025-12-31", "2025-01-01", "savings"⟩ : Goal)]
      (by decide) (by decide) (by decide)).1⟩

/-- C5: spike detection returns exactly the expense transactions of the month
whose amount strictly exceeds twice the mean expense amount of the month
(itself included in the mean), sorted descending by amount, and returns the
empty list when the month has no expense transactions. -/
theorem detect_spikes_spec (transactions : List Transaction) (month : String) :
    (filter_by_type (filter_transactions_by_month transactions month) "expense" = [] →
      detect_spending_spikes transactions month = []) ∧
    List.Sorted spikeOrder (detect_spending_spikes transactions month) ∧
    (∀ t : Transaction,
      t ∈ detect_spending_spikes transactions month ↔
        t ∈ filter_by_type (filter_transactions_by_month transactions month) "expense" ∧
          (((filter_by_type (filter_transactions_by_month transactions month)
                  "expense").map Transaction.amount_paisa).sum : ℚ) /
              (((filter_by_type (filter_transactions_by_month transactions month)
                  "expense").map Transaction.amount_paisa).length : ℚ) * 2 <
            (t.amount_paisa : ℚ)) := by
  by_cases h : filter_by_type (filter_transactions_by_month transactions month) "expense" = []
  · refine ⟨fun _ => ?_, ?_, fun t => ?_⟩
    · simp [detect_spending_spikes, h]
    · simp [detect_spending_spikes, h]
    · simp [detect_spending_spikes, h]
  · refine ⟨fun hh => absurd hh h, ?_, fun t => ?_⟩
    · simp only [detect_spending_spikes, if_neg h]
      exact List.sorted_insertionSort spikeOrder _
    · simp only [detect_spending_spikes, if_neg h]
      rw [List.Perm.mem_iff (List.perm_insertionSort _ _), List.mem_filter]
      simp [gt_iff_lt]

/-- Witness for C5: the spec scenario of one 100000 expense among four 20000
expenses, and the empty ledger. -/
theorem detect_spikes_spec_witness :
    detect_spending_spikes [] "2025-03" = [] ∧
    (⟨"2025-03-05", "expense", "Shopping", 100000, "tv"⟩ : Transaction) ∈
      detect_spending_spikes
        [⟨"2025-03-05", "expense", "Shopping", 100000, "tv"⟩,
         ⟨"2025-03-06", "expense", "Food", 20000, "a"⟩,
         ⟨"2025-03-07", "expense", "Food", 20000, "b"⟩,
         ⟨"2025-03-08", "expense", "Travel", 20000, "c"⟩,
         ⟨"2025-03-09", "expense", "Food", 20000, "d"⟩] "2025-03" :=
  by
  refine ⟨(detect_spikes_spec [] "2025-03").1 rfl, ?_⟩
  apply ((detect_spikes_spec
      [⟨"2025-03-05", "expense", "Shopping", 100000, "tv"⟩,
       ⟨"2025-03-06", "expense", "Food", 20000, "a"⟩,
       ⟨"2025-03-07", "expense", "Food", 20000, "b"⟩,
       ⟨"2025-03-08", "expense", "Travel", 20000, "c"⟩,
       ⟨"2025-03-09", "expense", "Food", 20000, "d"⟩] "2025-03").2.2
    ⟨"2025-03-05", "expense", "Shopping", 100000, "tv"⟩).mpr
  refine ⟨by decide, ?_⟩
  have hlist : filter_by_type
      (filter_transactions_by_month
        [⟨"2025-03-05", "expense", "Shopping", 100000, "tv"⟩,
         ⟨"2025-03-06", "expense", "Food", 20000, "a"⟩,
         ⟨"2025-03-07", "expense", "Food", 20000, "b"⟩,
         ⟨"2025-03-08", "expense", "Travel", 20000, "c"⟩,
         ⟨"2025-03-09", "expense", "Food", 20000, "d"⟩] "2025-03") "expense" =
      [⟨"2025-03-05", "expense", "Shopping", 100000, "tv"⟩,
       ⟨"2025-03-06", "expense", "Food", 20000, "a"⟩,
       ⟨"2025-03-07", "expense", "Food", 20000, "b"⟩,
       ⟨"2025-03-08", "expense", "Travel", 20000, "c"⟩,
       ⟨"2025-03-09", "expense", "Food", 20000, "d"⟩] := by decide
  rw [hlist]
  norm_num

/-- Updating a budget limit leaves the stored categories unchanged. -/
lemma update_budget_list_map_category (l : List Budget) (cat : String) (amt : ℕ) :
    (update_budget_list l cat amt).1.map Budget.category = l.map Budget.category := by
  induction l with
  | nil => rfl
  | cons hd tl ih =>
    simp only [update_budget_list]
    by_cases hc : (hd.category == cat)
    · simp [hc]
    · simp [hc, ih]

/-- The update operation leaves the stored categories unchanged. -/
lemma update_budget_map_category (l : List Budget) (cat : String) (amt : ℕ) :
    (update_budget l cat amt).map Budget.category = l.map Budget.category := by
  simp only [update_budget]
  by_cases hb : (update_budget_list l cat amt).2
  · simp only [hb, if_true]
    exact update_budget_list_map_category l cat amt
  · simp [hb]

/-- When no budget exists for a category, the category is absent from the
stored category list. -/
lemma budget_exists_false_not_mem {l : List Budget} {cat : String}
    (h : budget_exists l cat = false) : cat ∉ l.map Budget.category := by
  simp only [budget_exists, List.any_eq_false, beq_iff_eq] at h
  intro hmem
  rcases List.mem_map.mp hmem with ⟨b, hb, he⟩
  exact h b hb he

/-- Setting a budget preserves distinctness of the stored categories. -/
lemma set_budget_nodup {l : List Budget} {cat : String} {amt : ℕ}
    (h : (l.map Budget.category).Nodup) :
    ((set_budget l cat amt).map Budget.category).Nodup := by
  unfold set_budget
  by_cases he : budget_exists l cat
  · simp only [he, if_true]
    rw [update_budget_map_category]
    exact h
  · have he2 : budget_exists l cat = false := by simpa using he
    simp only [he2, Bool.false_eq_true, if_false]
    unfold write_budget
    rw [List.map_append, List.nodup_append]
    refine ⟨h, List.nodup_singleton _, ?_⟩
    simp only [List.map_cons, List.map_nil, List.disjoint_singleton]
    exact budget_exists_false_not_mem he2

/-- Deleting a budget preserves distinctness of the stored categories. -/
lemma delete_budget_nodup {l : List Budget} {cat : String}
    (h : (l.map Budget.category).Nodup) :
    ((delete_budget l cat).map Budget.category).Nodup := by
  unfold delete_budget
  exact List.Nodup.sublist (List.Sublist.map Budget.category (List.filter_sublist l)) h

/-- After an update on an existing category, the first budget of that
category carries the new limit. -/
lemma update_budget_list_find (l : List Budget) (cat : String) (amt : ℕ)
    (h : budget_exists l cat = true) :
    (update_budget_list l cat amt).2 = true ∧
      ∃ b, (update_budget_list l cat amt).1.find? (fun b => b.category == cat) = some b ∧
        b.limit_paisa = amt := by
  induction l with
  | nil => simp [budget_exists] at h
  | cons hd tl ih =>
    by_cases hc : (hd.category == cat)
    · refine ⟨by simp [update_budget_list, hc], ⟨hd.category, amt, hd.period⟩, ?_, rfl⟩
      simp only [update_budget_list, hc, if_true]
      exact List.find?_cons_of_pos _ hc
    · have h2 : budget_exists tl cat = true := by
        have := h
        simp only [budget_exists, List.any_cons, hc, Bool.false_or] at this
        simpa [budget_exists] using this
      rcases ih h2 with ⟨h1, b, hfind, hlim⟩
      refine ⟨by simp [update_budget_list, hc, h1], b, ?_, hlim⟩
      simp only [update_budget_list, hc, Bool.false_eq_true, if_false]
      rw [List.find?_cons_of_neg _ (by simpa using hc)]
      exact hfind

/-- Setting a budget on an existing category keeps the category list and
stores the new limit. -/
lemma set_budget_upsert (s : List Budget) (cat : String) (amt : ℕ)
    (h : budget_exists s cat = true) :
    (set_budget s cat amt).map Budget.category = s.map Budget.category ∧
      get_budget_for_category (set_budget s cat amt) cat = some amt := by
  unfold set_budget
  simp only [h, if_true]
  refine ⟨update_budget_map_category s cat amt, ?_⟩
  rcases update_budget_list_find s cat amt h with ⟨hflag, b, hfind, hlim⟩
  unfold update_budget
  simp only [hflag, if_true]
  simp [get_budget_for_category, hfind, hlim]

/-- C8: every reachable stored budget collection has at most one budget per
category, and setting a budget for a category that already has one replaces
its limit without adding a second record. -/
theorem budget_upsert_unique :
    (∀ s : List Budget, ReachableBudgets s → (s.map Budget.category).Nodup) ∧
    (∀ (s : List Budget) (cat : String) (amt : ℕ), budget_exists s cat = true →
      (set_budget s cat amt).map Budget.category = s.map Budget.category ∧
        get_budget_for_category (set_budget s cat amt) cat = some amt) := by
  constructor
  · intro s hs
    induction hs with
    | empty => simp
    | set s cat amt _ ih => exact set_budget_nodup ih
    | update s cat amt _ ih =>
      rw [update_budget_map_category]
      exact ih
    | del s cat _ ih => exact delete_budget_nodup ih
  · intro s cat amt h
    exact set_budget_upsert s cat amt h

/-- Witness for C8 on a concrete reachable store of one budget. -/
theorem budget_upsert_unique_witness :
    ((set_budget [] "Food" 5000).map Budget.category).Nodup ∧
      (set_budget [(⟨"Food", 5000, "monthly"⟩ : Budget)] "Food" 7000).map Budget.category =
        [(⟨"Food", 5000, "monthly"⟩ : Budget)].map Budget.category ∧
      get_budget_for_category
          (set_budget [(⟨"Food", 5000, "monthly"⟩ : Budget)] "Food" 7000) "Food" =
        some 7000 :=
  ⟨budget_upsert_unique.1 _ (ReachableBudgets.set [] "Food" 5000 ReachableBudgets.empty),
    (budget_upsert_unique.2 [⟨"Food", 5000, "monthly"⟩] "Food" 7000 (by decide)).1,
    (budget_upsert_unique.2 [⟨"Food", 5000, "monthly"⟩] "Food" 7000 (by decide)).2⟩
